import Mathlib

/- Shallow embedding of the MinecraftStatus bot, src/mstbot.py.
   Strings are handled through their character lists with structural
   helpers so that every definition reduces inside the kernel. -/

/-- Channel kinds used by the bot (discord.ChannelType); only voice and text matter. -/
inductive ChanType where
  | voice
  | text
deriving DecidableEq

/-- A guild channel: numeric id, current name, kind, and whether the platform
answers a rename or delete request on it with Forbidden. -/
structure Channel where
  cid : Nat
  name : String
  ctype : ChanType
  renameForbidden : Bool
  deleteForbidden : Bool
deriving DecidableEq

/-- Substring test on character data, modelling the Python in operator on strings. -/
def strContains (hay needle : String) : Bool :=
  hay.data.tails.any (fun t => needle.data.isPrefixOf t)

/-- mstbot.py find_channels: filter the guild channel list by optional id,
optional name (equality or substring search) and optional channel type. -/
def find_channels (chans : List Channel) (chanid : Option Nat)
    (channame : Option String) (channamesearch : String)
    (chantype : Option ChanType) : List Channel :=
  chans.filter (fun c =>
    (match chanid with
     | some i => c.cid == i
     | none => true) &&
    (match channame with
     | some nm =>
       if channamesearch = "equal" then c.name == nm
       else if channamesearch = "in" then strContains c.name nm
       else true
     | none => true) &&
    (match chantype with
     | some t => t == c.ctype
     | none => true))

/-- One row of the servers table for a guild: address, port, announcement
configuration, the show hours flag and the last query timestamp
(null before the first successful query). Timestamps are UTC seconds. -/
structure ServerRow where
  ip : String
  port : Int
  announceJoins : Bool
  announceJoinsId : Option Nat
  hours : Bool
  lastQuery : Option Int
deriving DecidableEq

/-- Per guild slice of the MySQL database: the servers row, the names rows of
the roster snapshot, and the time value of the times row; a component is none
when the corresponding row was deleted or never inserted. -/
structure Database where
  servers : Option ServerRow
  names : List String
  times : Option Int
deriving DecidableEq

/-- mstbot.py getMCIP: SELECT ip, port FROM servers. fetchone on an empty
result set is None in Python and the subscript row[0] then raises TypeError;
the none value records that crash possibility. -/
def getMCIP (db : Database) : Option (String × Int) :=
  db.servers.map (fun r => (r.ip, r.port))

/-- mstbot.py getMCNames: the stored roster snapshot. -/
def getMCNames (db : Database) : List String := db.names

/-- mstbot.py getPersonSeconds: the accumulated presence seconds counter;
none when the times row is absent (fetchone crash, as in getMCIP). -/
def getPersonSeconds (db : Database) : Option Int := db.times

/-- mstbot.py getShowHours. -/
def getShowHours (db : Database) : Option Bool := db.servers.map (fun r => r.hours)

/-- mstbot.py setMCNames: DELETE all names rows, then INSERT the new roster. -/
def setMCNames (db : Database) (names : List String) : Database :=
  { db with names := names }

/-- mstbot.py setMCQueryTime: UPDATE servers SET last_query; an UPDATE on a
missing row silently touches nothing. -/
def setMCQueryTime (db : Database) (t : Int) : Database :=
  { db with servers := db.servers.map (fun r => { r with lastQuery := some t }) }

/-- mstbot.py incrementPersonSeconds: UPDATE times SET time=time+seconds. -/
def incrementPersonSeconds (db : Database) (s : Int) : Database :=
  { db with times := db.times.map (fun t => t + s) }

/-- Outcome of one remote query: success carries the online count, the
capacity and the roster; timeout, connection refused and name resolution
failure are all one failure case handled identically by the source. -/
inductive QueryOutcome where
  | success (online : Int) (cap : Int) (names : List String)
  | failure
deriving DecidableEq

/-- The channel deletion loop of do_bot_cleanup, mstbot.py 417-423: one try
block wraps the whole for loop, so the first Forbidden delete aborts every
remaining deletion. Returns the channels whose deletion was attempted and
the deleted flag (true only when the loop ran to completion). -/
def deleteLoop : List Channel → List Channel × Bool
  | [] => ([], true)
  | c :: rest =>
    if c.deleteForbidden then ([c], false)
    else
      let r := deleteLoop rest
      (c :: r.1, r.2)

/-- Crash outcomes of the embedded task code: the TypeError raised by
subscripting the None returned by fetchone (noServerRow, noTimesRow), and
the UnboundLocalError raised by reading the max name of status_task - a
local, assigned only by a successful query at mstbot.py 485 - before any
success of the task instance (unboundLocalMax). -/
inductive DbCrash where
  | noServerRow
  | noTimesRow
  | unboundLocalMax
deriving DecidableEq

/-- Result of a do_bot_cleanup call that ran to completion. -/
structure CleanupOk where
  reg : List Nat
  db : Database
  attempted : List Channel
  deletedFlag : Bool
deriving DecidableEq

/-- The display channels do_bot_cleanup collects for deletion, in source
order: address displays, then player count displays, then hour displays. -/
def cleanupTargets (chans : List Channel) : List Channel :=
  find_channels chans none (some "IP: ") "in" (some ChanType.voice)
    ++ find_channels chans none (some "Players: ") "in" (some ChanType.voice)
    ++ find_channels chans none (some "Player Hrs: ") "in" (some ChanType.voice)

/-- The wiped per guild database state after the three DELETE statements. -/
def cleanedDb : Database := { servers := none, names := [], times := none }

/-- mstbot.py do_bot_cleanup: drop sid from the task registry, delete the
display channels best effort inside one try block (only when the guild is
still visible), then read the stored address via getMCIP - which crashes when
the servers row is already gone - and finally delete all three row sets. -/
def do_bot_cleanup (reg : List Nat) (sid : Nat) (visible : Bool)
    (chans : List Channel) (db : Database) : Except DbCrash CleanupOk :=
  let reg1 := if sid ∈ reg then reg.erase sid else reg
  let del := if visible then deleteLoop (cleanupTargets chans) else ([], false)
  match getMCIP db with
  | none => Except.error DbCrash.noServerRow
  | some _ =>
    Except.ok { reg := reg1, db := cleanedDb,
                attempted := del.1, deletedFlag := del.2 }

/-- Python percent-02d formatting for the minute and second fields. -/
def pad2 (n : Nat) : String :=
  if n < 10 then "0" ++ toString n else toString n

/-- The Total Player Time string of the status command, mstbot.py 170-177:
the accumulated seconds are reduced modulo 24 hours, then destructively
split into hours, minutes and seconds. -/
def statusTimeStr (t : Nat) : String :=
  let s1 := t % (24 * 3600)
  let hour := s1 / 3600
  let s2 := s1 % 3600
  let minutes := s2 / 60
  let s3 := s2 % 60
  toString hour ++ ":" ++ pad2 minutes ++ ":" ++ pad2 s3

/-- Modelled from the claim wording: plain H:MM:SS rendering of a second
count, used as the specification side of the C9 refinement. -/
def specHMS (n : Nat) : String :=
  toString (n / 3600) ++ ":" ++ pad2 (n % 3600 / 60) ++ ":" ++ pad2 (n % 60)

/-- A channel freshly created by create_voice_channel; the platform assigns
the id, modelled here with fixed fresh ids well above the test data. -/
def mkChannel (i : Nat) (nm : String) : Channel :=
  { cid := i, name := nm, ctype := ChanType.voice,
    renameForbidden := false, deleteForbidden := false }

/-- Effect of a successful channel edit: the channel with the given id gets
the new name. -/
def applyRename (chans : List Channel) (i : Nat) (nm : String) : List Channel :=
  chans.map (fun c => if c.cid = i then { c with name := nm } else c)

/-- One display update attempt of status_task: when the live name already
equals the target nothing happens, otherwise an edit is attempted, which
either sets the long cooldown wait of 301 or raises Forbidden (none). -/
def renameOrKeep (chans : List Channel) (c : Channel) (target : String)
    (wait : Nat) : Option (List Channel × Nat) :=
  if c.name = target then some (chans, wait)
  else if c.renameForbidden then none
  else some (applyRename chans c.cid target, 301)

/-- Outcome of the player count display step, mstbot.py 558-578: continue
with the updated channels, wait and created names and the computed target
string (none when the display was created rather than diffed), stop because
a rename was forbidden, or crash because the max local was read unassigned. -/
inductive PStepOut where
  | go (chans : List Channel) (wait : Nat) (created : List String)
      (pTarget : Option String)
  | forbidden
  | unbound
deriving DecidableEq

/-- The player count display step, mstbot.py 558-578. The source evaluates
str(max) in exactly two places: the pStr assignment at 564 (reached only
when players is not the -1 sentinel) and the f-string of the creation call
at 577 (always evaluated there). max is a local of status_task, assigned
only by a successful query, so either evaluation before the first success
of the task instance raises UnboundLocalError, the unbound outcome; maxv is
the current binding of that local, none while it is unassigned. -/
def playersStep (chans1 : List Channel) (wait1 : Nat) (created1 : List String)
    (pChannels : List Channel) (players : Int) (maxv : Option Int) : PStepOut :=
  match pChannels with
  | [] =>
    match maxv with
    | none => PStepOut.unbound
    | some mv =>
      let nm := "Players: " ++ toString players ++ "/" ++ toString mv
      PStepOut.go (chans1 ++ [mkChannel 1000000001 nm]) wait1 (created1 ++ [nm]) none
  | c :: _ =>
    if players = -1 then PStepOut.go chans1 wait1 created1 (some c.name)
    else
      match maxv with
      | none => PStepOut.unbound
      | some mv =>
        let pStr := "Players: " ++ toString players ++ "/" ++ toString mv
        match renameOrKeep chans1 c pStr wait1 with
        | none => PStepOut.forbidden
        | some p => PStepOut.go p.1 p.2 created1 (some pStr)

/-- Python round on the exact value n / d for d > 0: round half to even. -/
def pythonRoundDiv (n d : Int) : Int :=
  let f := n.fdiv d
  let r := n.fmod d
  if 2 * r < d then f
  else if 2 * r > d then f + 1
  else if f % 2 = 0 then f else f + 1

/-- Everything one loop iteration of status_task hands to the next one when
the task keeps running: the written database, the guild channels after the
renames and creations, the chosen wait, the announced join names, the names
of created channels, the registry, and the computed target strings of the
player count display (when one exists) and the hour display (when rendered). -/
structure CycleOk where
  db : Database
  chans : List Channel
  wait : Nat
  announced : List String
  created : List String
  reg : List Nat
  pTarget : Option String
  hoursTarget : Option String
deriving DecidableEq

/-- How one loop iteration of status_task ends: either the task continues
with the carried data, or it returns, after the given number of
do_bot_cleanup teardown attempts, leaving the final registry and database. -/
inductive CycleResult where
  | next (r : CycleOk)
  | stopped (reg : List Nat) (db : Database) (teardowns : Nat)
deriving DecidableEq

/-- The teardown-and-return path taken when a channel edit raises Forbidden,
mstbot.py 550-554, 571-575, 590-594. -/
def stopViaCleanup (reg : List Nat) (sid : Nat) (chans : List Channel)
    (db : Database) : Except DbCrash CycleResult :=
  match do_bot_cleanup reg sid true chans db with
  | Except.error e => Except.error e
  | Except.ok r => Except.ok (CycleResult.stopped r.reg r.db 1)

/-- The render half of one status_task iteration, mstbot.py 530-597: snapshot
the three display channel lists, then reconcile the address display, the
player count display and, when enabled and warmed up and the query succeeded,
the hour display. Each reconciliation either keeps, renames (Forbidden leads
to teardown and return) or creates its channel; the player count step may
also crash on the unassigned max local. On a failed query players is -1 and
lastSeconds is -1; rosterLen and elapsed are only read under the
lastSeconds check, mirroring the source where they are only bound on success. -/
def renderPhase (sid : Nat) (reg : List Nat) (chans : List Channel)
    (ip : String) (showHours : Bool) (firstIter : Bool) (players : Int)
    (maxv : Option Int) (lastSeconds : Int) (rosterLen : Nat) (elapsed : Int)
    (db3 : Database) (announced : List String) : Except DbCrash CycleResult :=
  let iChannels := find_channels chans none (some "IP: ") "in" (some ChanType.voice)
  let pChannels := find_channels chans none (some "Players: ") "in" (some ChanType.voice)
  let tChannels := find_channels chans none (some "Player Hrs: ") "in" (some ChanType.voice)
  let ipStr := "IP: " ++ ip
  match (match iChannels with
         | [] => some (chans ++ [mkChannel 1000000000 ipStr], 10, [ipStr])
         | c :: _ => (renameOrKeep chans c ipStr 10).map (fun (p : List Channel × Nat) => (p.1, p.2, ([] : List String)))) with
  | none => stopViaCleanup reg sid chans db3
  | some (chans1, wait1, created1) =>
    match playersStep chans1 wait1 created1 pChannels players maxv with
    | PStepOut.unbound => Except.error DbCrash.unboundLocalMax
    | PStepOut.forbidden => stopViaCleanup reg sid chans1 db3
    | PStepOut.go chans2 wait2 created2 pTarget =>
      if showHours = true ∧ firstIter = false ∧ ¬ lastSeconds = -1 then
        let tStr := "Player Hrs: "
          ++ toString (pythonRoundDiv (lastSeconds + (rosterLen : Int) * elapsed) 3600)
        match (match tChannels with
               | [] => some (chans2 ++ [mkChannel 1000000002 tStr], wait2, created2 ++ [tStr])
               | c :: _ => (renameOrKeep chans2 c tStr wait2).map
                   (fun (p : List Channel × Nat) => (p.1, p.2, created2))) with
        | none => stopViaCleanup reg sid chans2 db3
        | some (chans3, wait3, created3) =>
          Except.ok (CycleResult.next
            { db := db3, chans := chans3, wait := wait3, announced := announced,
              created := created3, reg := reg, pTarget := pTarget,
              hoursTarget := some tStr })
      else
        Except.ok (CycleResult.next
          { db := db3, chans := chans2, wait := wait2, announced := announced,
            created := created2, reg := reg, pTarget := pTarget,
            hoursTarget := none })

/-- One full iteration of the status_task while loop, mstbot.py 461-603, for
guild sid. Inputs beyond the stored state: whether the bot is still a member
of the guild (visible), the task registry, the guild channel list, the query
outcome, the current UTC time in seconds, the task local first_iter flag and
the task local binding of max (none while no query of this task instance has
succeeded yet, so a read of it raises). On success the roster,
the query time and - except on the first iteration - the accumulated person
seconds are persisted, and joins are announced when configured; on failure
players and lastSeconds become the -1 sentinels and nothing is persisted. -/
def status_cycle (sid : Nat) (reg : List Nat) (visible : Bool)
    (chans : List Channel) (db : Database) (q : QueryOutcome) (currTime : Int)
    (firstIter : Bool) (maxEnv : Option Int) : Except DbCrash CycleResult :=
  if visible = false then
    match do_bot_cleanup reg sid false chans db with
    | Except.error e => Except.error e
    | Except.ok r => Except.ok (CycleResult.stopped r.reg r.db 1)
  else if sid ∈ reg then
    match db.servers with
    | none => Except.error DbCrash.noServerRow
    | some row =>
      if row.ip = "" then
        Except.ok (CycleResult.next
          { db := db, chans := chans, wait := 10, announced := [], created := [],
            reg := reg, pTarget := none, hoursTarget := none })
      else
        match q with
        | QueryOutcome.success online cap names =>
          match db.times with
          | none => Except.error DbCrash.noTimesRow
          | some lastSeconds =>
            let oldNames := db.names
            let lastTime := row.lastQuery.getD currTime
            let elapsed := currTime - lastTime
            let db1 := setMCNames db names
            let db2 := setMCQueryTime db1 currTime
            let db3 := if firstIter = true then db2
              else incrementPersonSeconds db2 ((names.length : Int) * elapsed)
            let jNames := (names.filter (fun n => decide (¬ n ∈ oldNames))).dedup
            let announced :=
              if row.announceJoins = true then
                match row.announceJoinsId with
                | some cid =>
                  if find_channels chans (some cid) none "equal" none = [] then []
                  else jNames
                | none => []
              else []
            renderPhase sid reg chans row.ip row.hours firstIter online
              (some cap) lastSeconds names.length elapsed db3 announced
        | QueryOutcome.failure =>
          renderPhase sid reg chans row.ip row.hours firstIter (-1)
            maxEnv (-1) 0 0 db []
  else
    Except.ok (CycleResult.stopped reg db 0)

/-- Structural split of a character list at a separator character, modelling
the Python str.split with a one character separator. -/
def splitOnChar (sep : Char) : List Char → List (List Char)
  | [] => [[]]
  | c :: rest =>
    match splitOnChar sep rest with
    | [] => [[]]
    | p :: ps => if c = sep then [] :: p :: ps else (c :: p) :: ps

/-- Digits to value accumulator used by the Python int model. -/
def digitsValAux : List Char → Nat → Option Nat
  | [], acc => some acc
  | c :: rest, acc =>
    if c.isDigit then digitsValAux rest (acc * 10 + (c.toNat - 48)) else none

/-- Python int applied to a string: optional sign, then decimal digits;
anything else raises ValueError, modelled as none. -/
def parsePyInt (l : List Char) : Option Int :=
  match l with
  | [] => none
  | '-' :: rest =>
    match rest with
    | [] => none
    | _ => (digitsValAux rest 0).map (fun n => -(n : Int))
  | '+' :: rest =>
    match rest with
    | [] => none
    | _ => (digitsValAux rest 0).map (fun n => (n : Int))
  | _ => (digitsValAux l 0).map (fun n => (n : Int))

/-- One lowercase letter or digit, the character class of the domain regex. -/
def isHostChar (c : Char) : Bool :=
  ('a' ≤ c && c ≤ 'z') || ('0' ≤ c && c ≤ '9')

/-- One domain label piece of the regex: alphanumeric groups joined by single
hyphens, never empty and never starting or ending with a hyphen. -/
def isHostLabel (l : List Char) : Bool :=
  (splitOnChar '-' l).all (fun p => !p.isEmpty && p.all isHostChar)

/-- One lowercase letter, for the final label of the domain regex. -/
def isLowerAlpha (c : Char) : Bool := 'a' ≤ c && c ≤ 'z'

/-- The anchored domain regex of validate_ip_port: one or more labels, each
followed by a dot, then a final label of two to six lowercase letters. -/
def isDomain (s : String) : Bool :=
  match (splitOnChar '.' s.data).reverse with
  | tld :: rest =>
    !rest.isEmpty && rest.all isHostLabel
      && decide (2 ≤ tld.length) && decide (tld.length ≤ 6) && tld.all isLowerAlpha
  | [] => false

/-- One octet alternative of the anchored IPv4 regex: 0-9, 10-99 without a
leading zero, 100-199, 200-249 or 250-255. -/
def isOctet (l : List Char) : Bool :=
  match l with
  | [a] => a.isDigit
  | [a, b] => ('1' ≤ a && a ≤ '9') && b.isDigit
  | [a, b, c] =>
    (a = '1' && b.isDigit && c.isDigit)
      || (a = '2' && ('0' ≤ b && b ≤ '4') && c.isDigit)
      || (a = '2' && b = '5' && ('0' ≤ c && c ≤ '5'))
  | _ => false

/-- The anchored IPv4 regex of validate_ip_port: four octets joined by dots. -/
def isIPv4 (s : String) : Bool :=
  match splitOnChar '.' s.data with
  | [a, b, c, d] => isOctet a && isOctet b && isOctet c && isOctet d
  | _ => false

/-- Character data prefix test for the private range regex alternatives. -/
def strStartsWith (s p : String) : Bool := p.data.isPrefixOf s.data

/-- The private range regex of validate_ip_port: 127.x, 10.x, 172.16.x
through 172.31.x and 192.168.x. -/
def isPrivate (s : String) : Bool :=
  strStartsWith s "127." || strStartsWith s "10."
    || strStartsWith s "172.16." || strStartsWith s "172.17."
    || strStartsWith s "172.18." || strStartsWith s "172.19."
    || strStartsWith s "172.20." || strStartsWith s "172.21."
    || strStartsWith s "172.22." || strStartsWith s "172.23."
    || strStartsWith s "172.24." || strStartsWith s "172.25."
    || strStartsWith s "172.26." || strStartsWith s "172.27."
    || strStartsWith s "172.28." || strStartsWith s "172.29."
    || strStartsWith s "172.30." || strStartsWith s "172.31."
    || strStartsWith s "192.168."

/-- The host part validate_ip_port ends up checking: the part before the
first colon when the argument carries a colon, the whole argument otherwise. -/
def effectiveHost (ip : String) : String :=
  match splitOnChar ':' ip.data with
  | a :: _ :: _ => String.mk a
  | _ => ip

/-- The checks of validate_ip_port after the optional colon split: port
range, domain or IPv4 regex, private range. Rejections carry the user
facing message of the source. -/
def validateHostPort (host : String) (p : Int) : Except String (String × Int) :=
  if ¬ (0 ≤ p ∧ p < 65536) then
    Except.error (toString p ++ " is not a valid port number, please try again.")
  else if ¬ (isDomain host = true ∨ isIPv4 host = true) then
    Except.error (host ++ " is not a valid domain or IP address, please try again.")
  else if isPrivate host = true then
    Except.error (host ++ " is a private IP. I wont be able to query it.")
  else Except.ok (host, p)

/-- mstbot.py validate_ip_port 257-287: split a possible colon port off the
address (a port parse failure is a rejection), then run the host and port
checks. -/
def validate_ip_port (ip : String) (port : Int) : Except String (String × Int) :=
  match splitOnChar ':' ip.data with
  | a :: b :: _ =>
    match parsePyInt b with
    | none =>
      Except.error (toString port ++ " is not a valid port number, please try again.")
    | some p => validateHostPort (String.mk a) p
  | _ => validateHostPort ip port

/-- Default servers row contents for a fresh INSERT (announcements off,
hours off, last_query NULL). -/
def defaultRow : ServerRow :=
  { ip := "", port := 25565, announceJoins := false, announceJoinsId := none,
    hours := false, lastQuery := none }

/-- The Admin setup command, mstbot.py 64-100: validate the address and port
and return with only a message on rejection; then query the server and return
with only a message on timeout or refusal; on success upsert the servers row
(the source stores the port parameter, not the validated port), replace the
roster snapshot, insert the times row when absent keeping an existing
counter, and apply the announcement setting. -/
def setupCmd (db : Database) (ip : String) (port : Int) (ann : Option Nat)
    (q : QueryOutcome) : Database :=
  match validate_ip_port ip port with
  | Except.error _ => db
  | Except.ok (vip, _vport) =>
    match q with
    | QueryOutcome.failure => db
    | QueryOutcome.success _ _ names =>
      let row0 := db.servers.getD defaultRow
      let row1 := { row0 with ip := vip, port := port }
      let db1 := setMCNames { db with servers := some row1 } names
      let db2 := { db1 with times := some (db1.times.getD 0) }
      let row2 :=
        match ann with
        | none => { row1 with announceJoins := false, announceJoinsId := none }
        | some cid => { row1 with announceJoins := true, announceJoinsId := some cid }
      { db2 with servers := some row2 }

example : strContains "Players: 1/4" "Players: " = true := by decide

example : statusTimeStr 90061 = "1:01:01" := by decide

example : isPrivate "192.168.0.5" = true := by decide

example : isIPv4 "8.8.8.8" = true := by decide

example : isDomain "mc.example.com" = true := by decide

example : validate_ip_port "192.168.0.5" 25565
    = Except.error "192.168.0.5 is a private IP. I wont be able to query it." := rfl

/- Concrete scenario data reused by the witnesses and counterexamples. -/

/-- A plain configured guild row: address a.com, no announcements, hours off,
last query at second 20. -/
def exRow : ServerRow :=
  { ip := "a.com", port := 25565, announceJoins := false, announceJoinsId := none,
    hours := false, lastQuery := some 20 }

/-- Stored state of the plain scenario: roster snapshot x, 7 accumulated seconds. -/
def exDb : Database := { servers := some exRow, names := ["x"], times := some 7 }

/-- Both display channels of the plain scenario already carry correct names. -/
def exChA : Channel :=
  { cid := 1, name := "IP: a.com", ctype := ChanType.voice,
    renameForbidden := false, deleteForbidden := false }

/-- The player count display of the plain scenario. -/
def exChP : Channel :=
  { cid := 2, name := "Players: 1/4", ctype := ChanType.voice,
    renameForbidden := false, deleteForbidden := false }

/-- The guild channel list of the plain scenario. -/
def exChans : List Channel := [exChA, exChP]

/- Helper lemmas shared by the claim theorems. -/

/-- The deletion loop attempts exactly the channels up to and including the
first one whose deletion is forbidden, and reports success only when none is. -/
lemma deleteLoop_eq (l : List Channel) :
    deleteLoop l
      = (l.takeWhile (fun c => !c.deleteForbidden)
          ++ (l.dropWhile (fun c => !c.deleteForbidden)).take 1,
         l.all (fun c => !c.deleteForbidden)) := by
  induction l with
  | nil => rfl
  | cons c rest ih =>
    by_cases h : c.deleteForbidden = true
    · simp [deleteLoop, h, List.takeWhile_cons, List.dropWhile_cons, List.all_cons]
    · simp only [Bool.not_eq_true] at h
      simp [deleteLoop, h, ih, List.takeWhile_cons, List.dropWhile_cons, List.all_cons]

/-- After the private range check is reached, a private host is rejected. -/
lemma validateHostPort_private (host : String) (p : Int)
    (hp : isPrivate host = true) :
    ∃ msg, validateHostPort host p = Except.error msg := by
  unfold validateHostPort
  by_cases h1 : ¬ (0 ≤ p ∧ p < 65536)
  · exact ⟨_, by rw [if_pos h1]⟩
  · rw [if_neg h1]
    by_cases h2 : ¬ (isDomain host = true ∨ isIPv4 host = true)
    · exact ⟨_, by rw [if_pos h2]⟩
    · rw [if_neg h2, if_pos hp]
      exact ⟨_, rfl⟩

/- Claim theorems. -/

/-- C9: the read-only status command renders Total Player Time from the
accumulated presence seconds reduced modulo 24 hours in H:MM:SS form, so any
total of a day or more is displayed wrapped around rather than in full. -/
theorem c9_theorem (t : Nat) :
    statusTimeStr t = specHMS (t % 86400)
      ∧ statusTimeStr (t + 86400) = statusTimeStr t := by
  constructor
  · simp only [statusTimeStr, specHMS]
    norm_num
  · simp only [statusTimeStr]
    rw [Nat.add_mod_right]

/-- C3 is wrong about the code: tearing a tenant down a second time, when its
stored state is already gone, does not succeed as a no-op. The first cleanup
succeeds and wipes the rows; the second call reaches getMCIP, where fetchone
returns None and the row subscript raises, modelled by the error value. -/
theorem c3_theorem :
    (do_bot_cleanup [1] 1 true [] { servers := some exRow, names := ["x"], times := some 5 }
       = Except.ok { reg := [], db := cleanedDb, attempted := [], deletedFlag := true })
    ∧ do_bot_cleanup [] 1 true [] cleanedDb = Except.error DbCrash.noServerRow :=
  ⟨rfl, rfl⟩

/-- The address display channel of the C7 scenario; its deletion is allowed. -/
def c7ChA : Channel :=
  { cid := 11, name := "IP: a.com", ctype := ChanType.voice,
    renameForbidden := false, deleteForbidden := false }

/-- The player count display of the C7 scenario; its deletion is forbidden. -/
def c7ChP : Channel :=
  { cid := 12, name := "Players: 1/4", ctype := ChanType.voice,
    renameForbidden := false, deleteForbidden := true }

/-- The hour display of the C7 scenario; its deletion is allowed but never
attempted because the loop aborts at the forbidden one before it. -/
def c7ChH : Channel :=
  { cid := 13, name := "Player Hrs: 2", ctype := ChanType.voice,
    renameForbidden := false, deleteForbidden := false }

/-- C7 as stated fails on the code: with three existing display channels
whose middle deletion is forbidden, the teardown notes the Forbidden error
but does not attempt the remaining deletion - the hour display is an
existing, deletable display channel that never gets a deletion attempt. -/
theorem c7_counterexample :
    (do_bot_cleanup [1] 1 true [c7ChA, c7ChP, c7ChH] exDb
       = Except.ok { reg := [], db := cleanedDb,
                     attempted := [c7ChA, c7ChP], deletedFlag := false })
    ∧ c7ChH ∈ cleanupTargets [c7ChA, c7ChP, c7ChH]
    ∧ ¬ c7ChH ∈ [c7ChA, c7ChP]
    ∧ c7ChH.deleteForbidden = false :=
  ⟨rfl, by decide, by decide, rfl⟩

/-- C7 amended: teardown attempts display channel deletions in listing order
inside one guarded block, so the first forbidden deletion is noted and aborts
the remaining attempts; the persisted state is deleted regardless whenever
the stored servers row still exists. -/
theorem c7_theorem (reg : List Nat) (sid : Nat) (chans : List Channel)
    (db : Database) (row : ServerRow) (h : db.servers = some row) :
    ∃ r, do_bot_cleanup reg sid true chans db = Except.ok r
      ∧ r.db = cleanedDb
      ∧ r.attempted
          = (cleanupTargets chans).takeWhile (fun c => !c.deleteForbidden)
            ++ ((cleanupTargets chans).dropWhile (fun c => !c.deleteForbidden)).take 1
      ∧ r.deletedFlag = (cleanupTargets chans).all (fun c => !c.deleteForbidden) := by
  have hm : getMCIP db = some (row.ip, row.port) := by simp [getMCIP, h]
  refine ⟨{ reg := if sid ∈ reg then reg.erase sid else reg, db := cleanedDb,
            attempted := (deleteLoop (cleanupTargets chans)).1,
            deletedFlag := (deleteLoop (cleanupTargets chans)).2 }, ?_, rfl, ?_, ?_⟩
  · simp [do_bot_cleanup, hm]
  · simp [deleteLoop_eq]
  · simp [deleteLoop_eq]

/-- Witness for C7 at the concrete three channel scenario. -/
theorem c7_witness :
    ∃ r, do_bot_cleanup [1] 1 true [c7ChA, c7ChP, c7ChH] exDb = Except.ok r
      ∧ r.db = cleanedDb
      ∧ r.attempted
          = (cleanupTargets [c7ChA, c7ChP, c7ChH]).takeWhile (fun c => !c.deleteForbidden)
            ++ ((cleanupTargets [c7ChA, c7ChP, c7ChH]).dropWhile (fun c => !c.deleteForbidden)).take 1
      ∧ r.deletedFlag = (cleanupTargets [c7ChA, c7ChP, c7ChH]).all (fun c => !c.deleteForbidden) :=
  c7_theorem [1] 1 [c7ChA, c7ChP, c7ChH] exDb exRow rfl

/-- C8: a setup invocation whose effective host is in a private range (or
that fails validation for any other reason) is rejected with a user facing
message and leaves the stored state untouched: no servers row, roster row or
times row is created or modified. -/
theorem c8_theorem (db : Database) (ip : String) (port : Int) (ann : Option Nat)
    (q : QueryOutcome)
    (h : isPrivate (effectiveHost ip) = true
         ∨ ∃ msg, validate_ip_port ip port = Except.error msg) :
    (∃ msg, validate_ip_port ip port = Except.error msg)
      ∧ setupCmd db ip port ann q = db := by
  have hv : ∃ msg, validate_ip_port ip port = Except.error msg := by
    rcases h with hp | hv
    · rcases hs : splitOnChar ':' ip.data with _ | ⟨a, _ | ⟨b, tail2⟩⟩
      · simp only [effectiveHost, hs] at hp
        obtain ⟨msg, hmsg⟩ := validateHostPort_private ip port hp
        exact ⟨msg, by simp [validate_ip_port, hs, hmsg]⟩
      · simp only [effectiveHost, hs] at hp
        obtain ⟨msg, hmsg⟩ := validateHostPort_private ip port hp
        exact ⟨msg, by simp [validate_ip_port, hs, hmsg]⟩
      · simp only [effectiveHost, hs] at hp
        rcases hpi : parsePyInt b with _ | p
        · exact ⟨toString port ++ " is not a valid port number, please try again.",
            by simp [validate_ip_port, hs, hpi]⟩
        · obtain ⟨msg, hmsg⟩ := validateHostPort_private (String.mk a) p hp
          exact ⟨msg, by simp [validate_ip_port, hs, hpi, hmsg]⟩
    · exact hv
  rcases hv with ⟨msg, hm⟩
  refine ⟨⟨msg, hm⟩, ?_⟩
  unfold setupCmd
  rw [hm]

/-- Witness for C8 at a concrete private range address. -/
theorem c8_witness :
    (∃ msg, validate_ip_port "192.168.0.5" 25565 = Except.error msg)
      ∧ setupCmd exDb "192.168.0.5" 25565 none (QueryOutcome.success 1 4 ["x"]) = exDb :=
  c8_theorem exDb "192.168.0.5" 25565 none (QueryOutcome.success 1 4 ["x"])
    (Or.inl (by decide))

/-- The teardown-and-return path never yields a continuing cycle. -/
lemma stopViaCleanup_ne_next (reg : List Nat) (sid : Nat) (chans : List Channel)
    (db : Database) (r : CycleOk) :
    stopViaCleanup reg sid chans db ≠ Except.ok (CycleResult.next r) := by
  unfold stopViaCleanup
  cases hc : do_bot_cleanup reg sid true chans db <;> simp

/-- Whatever the render phase does with the displays, a continuing cycle
carries exactly the database, the announcements and the registry it was
given, and its hour target is exactly the string of the hour block when the
block was entered. -/
lemma renderPhase_next (sid : Nat) (reg : List Nat) (chans : List Channel)
    (ip : String) (sh fi : Bool) (players : Int) (maxv : Option Int)
    (ls : Int) (rl : Nat) (el : Int) (db3 : Database) (ann : List String)
    (r : CycleOk)
    (h : renderPhase sid reg chans ip sh fi players maxv ls rl el db3 ann
         = Except.ok (CycleResult.next r)) :
    r.db = db3 ∧ r.announced = ann ∧ r.reg = reg
      ∧ r.hoursTarget
        = (if sh = true ∧ fi = false ∧ ¬ ls = -1
           then some ("Player Hrs: "
             ++ toString (pythonRoundDiv (ls + (rl : Int) * el) 3600))
           else none) := by
  simp only [renderPhase, renameOrKeep] at h
  repeat' (first
    | (exact absurd h (stopViaCleanup_ne_next _ _ _ _ _))
    | (exact Except.noConfusion h)
    | split at h
    | simp only [Option.map_some', Option.map_none'] at h)
  all_goals
    simp only [Except.ok.injEq, CycleResult.next.injEq] at h
  all_goals subst h
  all_goals refine ⟨rfl, rfl, rfl, ?_⟩
  all_goals (try (solve | simp_all))
  all_goals
    have hnc : ¬ (sh = true ∧ fi = false ∧ ¬ ls = -1) :=
      ‹¬ (sh = true ∧ fi = false ∧ ¬ ls = -1)›
  all_goals rw [if_neg hnc]

/-- The guild row of the C1 scenario: three players stored, last query at
second 400, announcements and hours off. -/
def c1Row : ServerRow :=
  { ip := "a.com", port := 25565, announceJoins := false, announceJoinsId := none,
    hours := false, lastQuery := some 400 }

/-- Stored state of the C1 scenario: roster a, b, c and counter 0. -/
def c1Db : Database := { servers := some c1Row, names := ["a", "b", "c"], times := some 0 }

/-- The player count display of the C1 scenario. -/
def c1ChP : Channel :=
  { cid := 2, name := "Players: 3/10", ctype := ChanType.voice,
    renameForbidden := false, deleteForbidden := false }

/-- Result of the first C1 cycle: 3 players for the 600 seconds since 400. -/
def c1r1 : CycleOk :=
  { db := { servers := some { c1Row with lastQuery := some 1000 },
            names := ["a", "b", "c"], times := some 1800 },
    chans := [exChA, c1ChP], wait := 10, announced := [], created := [],
    reg := [1], pTarget := some "Players: 3/10", hoursTarget := none }

/-- Result of the second C1 cycle: the roster grew to 5 players during the
600 second interval and the code bills all 600 seconds at the new size 5. -/
def c1r2 : CycleOk :=
  { db := { servers := some { c1Row with lastQuery := some 1600 },
            names := ["a", "b", "c", "d", "e"], times := some 4800 },
    chans := [exChA, { c1ChP with name := "Players: 5/10" }], wait := 301,
    announced := [], created := [], reg := [1],
    pTarget := some "Players: 5/10", hoursTarget := none }

/-- Result of the C1 restart cycle: a first iteration after a task restart
persists nothing into the counter although the stored timestamp is valid. -/
def c1r3 : CycleOk :=
  { db := { servers := some { c1Row with lastQuery := some 1000 },
            names := ["a", "b", "c"], times := some 0 },
    chans := [exChA, c1ChP], wait := 10, announced := [], created := [],
    reg := [1], pTarget := some "Players: 3/10", hoursTarget := none }

/-- C1 as stated fails on the code twice over. First, across the two
consecutive successful cycles below (roster size 3 persisted at the start of
the interval, 600 elapsed seconds) the counter increases by 3000, the size 5
roster observed at the end of the interval times 600, not by
roster_size_at_start_of_interval * interval_seconds = 1800. Second, on a
first loop iteration with a valid stored timestamp (a task restart) a
successful cycle adds 0 instead of 3 * 600. -/
theorem c1_counterexample :
    (status_cycle 1 [1] true [exChA, c1ChP] c1Db
        (QueryOutcome.success 3 10 ["a", "b", "c"]) 1000 false (some 10)
       = Except.ok (CycleResult.next c1r1))
    ∧ (status_cycle 1 [1] true c1r1.chans c1r1.db
        (QueryOutcome.success 5 10 ["a", "b", "c", "d", "e"]) 1600 false (some 10)
       = Except.ok (CycleResult.next c1r2))
    ∧ c1r1.db.times = some 1800 ∧ c1r2.db.times = some 4800
    ∧ ¬ ((4800 : Int) = 1800 + 3 * 600)
    ∧ (status_cycle 1 [1] true [exChA, c1ChP] c1Db
        (QueryOutcome.success 3 10 ["a", "b", "c"]) 1000 true (some 10)
       = Except.ok (CycleResult.next c1r3))
    ∧ c1r3.db.times = some 0 ∧ ¬ ((0 : Int) = 0 + 3 * 600) :=
  ⟨rfl, rfl, rfl, rfl, by decide, rfl, rfl, by decide⟩

/-- C1 amended: on a successful cycle that continues, the persisted counter
gains exactly (size of the roster observed at the END of the interval) times
the elapsed seconds since the stored timestamp; it gains nothing on the first
loop iteration of the task or when the stored timestamp is null; and it never
decreases while timestamps do not decrease. -/
theorem c1_theorem (sid : Nat) (reg : List Nat) (chans : List Channel)
    (db : Database) (row : ServerRow) (online cap : Int) (names : List String)
    (currTime : Int) (firstIter : Bool) (maxEnv : Option Int) (a : Int)
    (r : CycleOk)
    (hrow : db.servers = some row) (hip : ¬ row.ip = "") (hmem : sid ∈ reg)
    (ha : db.times = some a)
    (h : status_cycle sid reg true chans db (QueryOutcome.success online cap names)
           currTime firstIter maxEnv = Except.ok (CycleResult.next r)) :
    r.db.times
        = some (if firstIter = true then a
                else a + (names.length : Int) * (currTime - row.lastQuery.getD currTime))
      ∧ (row.lastQuery = none → firstIter = false → r.db.times = some a)
      ∧ (∀ t0, row.lastQuery = some t0 → firstIter = false → t0 ≤ currTime
          → ∃ d : Int, 0 ≤ d ∧ r.db.times = some (a + d)) := by
  simp only [status_cycle, hrow, ha, hmem, hip] at h
  obtain ⟨hdb, -, -, -⟩ := renderPhase_next _ _ _ _ _ _ _ _ _ _ _ _ _ _ h
  refine ⟨?_, ?_, ?_⟩
  · rw [hdb]
    by_cases hf : firstIter = true
    · simp [hf, setMCNames, setMCQueryTime, ha]
    · simp [hf, setMCNames, setMCQueryTime, incrementPersonSeconds, ha]
  · intro hnone hf
    rw [hdb]
    simp [hf, hnone, setMCNames, setMCQueryTime, incrementPersonSeconds, ha]
  · intro t0 ht0 hf hle
    refine ⟨(names.length : Int) * (currTime - t0),
      mul_nonneg (Int.natCast_nonneg _) (by linarith), ?_⟩
    rw [hdb]
    simp [hf, ht0, setMCNames, setMCQueryTime, incrementPersonSeconds, ha]

/-- Result of the C1 witness cycle on the plain scenario. -/
def c1wr : CycleOk :=
  { db := { servers := some { exRow with lastQuery := some 50 },
            names := ["x"], times := some 37 },
    chans := exChans, wait := 10, announced := [], created := [],
    reg := [1], pTarget := some "Players: 1/4", hoursTarget := none }

/-- Witness for C1 on the plain scenario: one player for 30 seconds. -/
theorem c1_witness :
    c1wr.db.times
      = some (if false = true then (7 : Int)
              else 7 + ((["x"] : List String).length : Int) * (50 - exRow.lastQuery.getD 50)) :=
  (c1_theorem 1 [1] exChans exDb exRow 1 4 ["x"] 50 false none 7 c1wr rfl
    (by decide) (by decide) rfl rfl).1

/-- The guild row of the C4 scenario: hour display enabled, 7200 accumulated
seconds, last query at second 1000. -/
def c4Row : ServerRow :=
  { ip := "a.com", port := 25565, announceJoins := false, announceJoinsId := none,
    hours := true, lastQuery := some 1000 }

/-- Stored state of the C4 scenario. -/
def c4Db : Database := { servers := some c4Row, names := ["a"], times := some 7200 }

/-- The player count display of the C4 scenario. -/
def c4ChP : Channel :=
  { cid := 2, name := "Players: 1/10", ctype := ChanType.voice,
    renameForbidden := false, deleteForbidden := false }

/-- Result of the first C4 cycle: the query fails, no hour string rendered. -/
def c4r1 : CycleOk :=
  { db := c4Db, chans := [exChA, c4ChP], wait := 10, announced := [], created := [],
    reg := [1], pTarget := some "Players: 1/10", hoursTarget := none }

/-- Result of the second C4 cycle: the first successful cycle since task
start, with online count 5 but a roster of one name, renders Player Hrs: 2. -/
def c4r2 : CycleOk :=
  { db := { servers := some { c4Row with lastQuery := some 1600 },
            names := ["a"], times := some 7800 },
    chans := [exChA, { c4ChP with name := "Players: 5/10" },
              mkChannel 1000000002 "Player Hrs: 2"],
    wait := 301, announced := [], created := ["Player Hrs: 2"], reg := [1],
    pTarget := some "Players: 5/10", hoursTarget := some "Player Hrs: 2" }

/-- C4 as stated fails on the code twice over. The task's first iteration
fails, so its second iteration is the first successful cycle since task
start - and the hour display IS rendered there (the guard is the iteration
counter, not success). Moreover the rendered value uses the roster length
(1), not the online count (5): the claimed formula would give Player Hrs: 3,
the code renders Player Hrs: 2. -/
theorem c4_counterexample :
    (status_cycle 1 [1] true [exChA, c4ChP] c4Db QueryOutcome.failure 1500 true none
       = Except.ok (CycleResult.next c4r1))
    ∧ c4r1.hoursTarget = none
    ∧ (status_cycle 1 [1] true [exChA, c4ChP] c4Db
         (QueryOutcome.success 5 10 ["a"]) 1600 false none
       = Except.ok (CycleResult.next c4r2))
    ∧ c4r2.hoursTarget = some "Player Hrs: 2"
    ∧ ¬ some "Player Hrs: 2"
        = some ("Player Hrs: " ++ toString (pythonRoundDiv (7200 + 5 * 600) 3600)) :=
  ⟨rfl, rfl, rfl, rfl, by decide⟩

/-- C4 amended: on a continuing cycle the hour target string equals
"Player Hrs: " followed by the half-to-even rounding of (stored accumulated
seconds before this cycle's increment + roster_length * elapsed) / 3600, and
it is rendered exactly when the show hours flag is set, the cycle is not the
first loop iteration of the task (successful or not), and the query of this
cycle succeeded. -/
theorem c4_theorem (sid : Nat) (reg : List Nat) (chans : List Channel)
    (db : Database) (row : ServerRow) (q : QueryOutcome) (currTime : Int)
    (firstIter : Bool) (maxEnv : Option Int) (a t0 : Int) (r : CycleOk)
    (hrow : db.servers = some row) (hip : ¬ row.ip = "") (hmem : sid ∈ reg)
    (ha : db.times = some a) (hane : ¬ a = -1) (hlq : row.lastQuery = some t0)
    (h : status_cycle sid reg true chans db q currTime firstIter maxEnv
         = Except.ok (CycleResult.next r)) :
    r.hoursTarget
      = match q with
        | QueryOutcome.success _ _ names =>
          if row.hours = true ∧ firstIter = false
          then some ("Player Hrs: "
            ++ toString (pythonRoundDiv (a + (names.length : Int) * (currTime - t0)) 3600))
          else none
        | QueryOutcome.failure => none := by
  cases q with
  | success online cap names =>
    simp only [status_cycle, hrow, ha, hmem, hip] at h
    obtain ⟨-, -, -, hh⟩ := renderPhase_next _ _ _ _ _ _ _ _ _ _ _ _ _ _ h
    rw [hh]
    simp [hlq, hane]
  | failure =>
    simp only [status_cycle, hrow, hmem, hip] at h
    obtain ⟨-, -, -, hh⟩ := renderPhase_next _ _ _ _ _ _ _ _ _ _ _ _ _ _ h
    rw [hh]
    simp

/-- Witness for C4 on the successful cycle of the C4 scenario. -/
theorem c4_witness :
    c4r2.hoursTarget
      = if c4Row.hours = true ∧ (false : Bool) = false
        then some ("Player Hrs: "
          ++ toString (pythonRoundDiv
               (7200 + (((["a"] : List String).length : Int)) * (1600 - 1000)) 3600))
        else none :=
  c4_theorem 1 [1] [exChA, c4ChP] c4Db c4Row (QueryOutcome.success 5 10 ["a"]) 1600
    false none 7200 1000 c4r2 rfl (by decide) (by decide) rfl (by decide) rfl rfl

/-- C5: on a continuing successful cycle with announcements configured and
the target channel resolvable, the announced join names are exactly the set
difference of the observed roster minus the stored snapshot, and an
observed roster equal as a set to the snapshot announces nothing. -/
theorem c5_theorem (sid : Nat) (reg : List Nat) (chans : List Channel)
    (db : Database) (row : ServerRow) (online cap : Int) (names : List String)
    (currTime : Int) (firstIter : Bool) (maxEnv : Option Int) (a : Int)
    (cid : Nat) (r : CycleOk)
    (hrow : db.servers = some row) (hip : ¬ row.ip = "") (hmem : sid ∈ reg)
    (ha : db.times = some a)
    (hann : row.announceJoins = true) (hcid : row.announceJoinsId = some cid)
    (hfound : ¬ find_channels chans (some cid) none "equal" none = [])
    (h : status_cycle sid reg true chans db
           (QueryOutcome.success online cap names) currTime firstIter maxEnv
         = Except.ok (CycleResult.next r)) :
    r.announced.toFinset = names.toFinset \ db.names.toFinset
      ∧ (names.toFinset = db.names.toFinset → r.announced = []) := by
  simp only [status_cycle, hrow, ha, hmem, hip, hann, hcid, hfound] at h
  obtain ⟨-, hannEq, -, -⟩ := renderPhase_next _ _ _ _ _ _ _ _ _ _ _ _ _ _ h
  rw [hannEq]
  constructor
  · ext x
    simp [List.mem_dedup, List.mem_filter, List.mem_toFinset, Finset.mem_sdiff,
      decide_eq_true_eq]
  · intro he
    have hmm : ∀ n ∈ names, n ∈ db.names := fun n hn =>
      List.mem_toFinset.mp (he ▸ List.mem_toFinset.mpr hn)
    have hfe : names.filter (fun n => decide (¬ n ∈ db.names)) = [] := by
      rw [List.filter_eq_nil_iff]
      intro n hn
      simp only [decide_eq_true_eq, Decidable.not_not]
      exact hmm n hn
    simp [hfe]
    exact hmm

/-- The guild row of the C5 witness: announcements into channel 5. -/
def c5Row : ServerRow :=
  { ip := "a.com", port := 25565, announceJoins := true, announceJoinsId := some 5,
    hours := false, lastQuery := some 20 }

/-- Stored state of the C5 witness scenario. -/
def c5Db : Database := { servers := some c5Row, names := ["x"], times := some 7 }

/-- The player count display of the C5 witness. -/
def c5ChP : Channel :=
  { cid := 2, name := "Players: 2/4", ctype := ChanType.voice,
    renameForbidden := false, deleteForbidden := false }

/-- The announcement text channel of the C5 witness. -/
def c5ChAnn : Channel :=
  { cid := 5, name := "general", ctype := ChanType.text,
    renameForbidden := false, deleteForbidden := false }

/-- Result of the C5 witness cycle: player y joined next to x. -/
def c5wr : CycleOk :=
  { db := { servers := some { c5Row with lastQuery := some 50 },
            names := ["x", "y"], times := some 67 },
    chans := [exChA, c5ChP, c5ChAnn], wait := 10, announced := ["y"], created := [],
    reg := [1], pTarget := some "Players: 2/4", hoursTarget := none }

/-- Witness for C5 on the concrete join scenario. -/
theorem c5_witness :
    c5wr.announced.toFinset = (["x", "y"] : List String).toFinset \ c5Db.names.toFinset
      ∧ ((["x", "y"] : List String).toFinset = c5Db.names.toFinset → c5wr.announced = []) :=
  c5_theorem 1 [1] [exChA, c5ChP, c5ChAnn] c5Db c5Row 2 4 ["x", "y"] 50 false none 7 5
    c5wr rfl (by decide) (by decide) rfl rfl rfl (by decide) rfl

/-- C6: with the guild visible and the tenant registered, a needed address
display rename that the platform forbids makes the cycle perform exactly one
teardown attempt, stop the task, and leave a registry without the tenant. -/
theorem c6_theorem (sid : Nat) (reg : List Nat) (chans : List Channel)
    (db : Database) (row : ServerRow) (q : QueryOutcome) (currTime : Int)
    (firstIter : Bool) (maxEnv : Option Int) (c : Channel) (rest : List Channel)
    (hrow : db.servers = some row) (hip : ¬ row.ip = "") (hmem : sid ∈ reg)
    (hnodup : reg.Nodup)
    (hq : q = QueryOutcome.failure ∨ ∃ a, db.times = some a)
    (hi : find_channels chans none (some "IP: ") "in" (some ChanType.voice) = c :: rest)
    (hnm : ¬ c.name = "IP: " ++ row.ip) (hforb : c.renameForbidden = true) :
    status_cycle sid reg true chans db q currTime firstIter maxEnv
      = Except.ok (CycleResult.stopped (reg.erase sid) cleanedDb 1)
    ∧ ¬ sid ∈ reg.erase sid := by
  have herase : ¬ sid ∈ reg.erase sid := by
    intro hin
    exact ((List.Nodup.mem_erase_iff hnodup).mp hin).1 rfl
  refine ⟨?_, herase⟩
  cases q with
  | failure =>
    simp [status_cycle, hrow, hmem, hip, renderPhase, renameOrKeep, hi, hnm, hforb,
      stopViaCleanup, do_bot_cleanup, getMCIP]
  | success online cap names =>
    rcases hq with hq | ⟨a, ha⟩
    · simp at hq
    · cases firstIter <;>
        simp [status_cycle, hrow, hmem, hip, ha, renderPhase, renameOrKeep, hi, hnm,
          hforb, stopViaCleanup, do_bot_cleanup, getMCIP, setMCNames, setMCQueryTime,
          incrementPersonSeconds]

/-- The misnamed, rename-forbidden address display of the C6 witness. -/
def c6Ch : Channel :=
  { cid := 1, name := "IP: old", ctype := ChanType.voice,
    renameForbidden := true, deleteForbidden := false }

/-- Witness for C6 on the concrete forbidden rename scenario. -/
theorem c6_witness :
    (status_cycle 1 [1] true [c6Ch] exDb QueryOutcome.failure 0 false none
       = Except.ok (CycleResult.stopped (List.erase [1] 1) cleanedDb 1))
    ∧ ¬ 1 ∈ List.erase [1] 1 :=
  c6_theorem 1 [1] [c6Ch] exDb exRow QueryOutcome.failure 0 false none c6Ch []
    rfl (by decide) (by decide) (by decide) (Or.inl rfl) rfl (by decide) rfl

/-- C2: on a cycle whose query failed, when a player count display exists
(and the address display, if present and misnamed, may be renamed), the
cycle continues, the player count target is exactly the string the display
already carries - the channel is kept unchanged, never set to zero - and a
display named with the correct configured address is present afterwards. -/
theorem c2_theorem (sid : Nat) (reg : List Nat) (chans : List Channel)
    (db : Database) (row : ServerRow) (currTime : Int) (firstIter : Bool)
    (maxEnv : Option Int) (pHead : Channel) (pRest : List Channel)
    (hrow : db.servers = some row) (hip : ¬ row.ip = "") (hmem : sid ∈ reg)
    (hp : find_channels chans none (some "Players: ") "in" (some ChanType.voice)
          = pHead :: pRest)
    (hi : match find_channels chans none (some "IP: ") "in" (some ChanType.voice) with
          | [] => True
          | c :: _ => (c.name = "IP: " ++ row.ip ∨ c.renameForbidden = false)
              ∧ ¬ c.cid = pHead.cid) :
    ∃ r, status_cycle sid reg true chans db QueryOutcome.failure currTime firstIter maxEnv
        = Except.ok (CycleResult.next r)
      ∧ r.pTarget = some pHead.name
      ∧ pHead ∈ r.chans
      ∧ ∃ ca, ca ∈ r.chans ∧ ca.name = "IP: " ++ row.ip := by
  have hpmem : pHead ∈ chans := by
    have h1 : pHead ∈ find_channels chans none (some "Players: ") "in" (some ChanType.voice) := by
      rw [hp]
      exact List.mem_cons_self _ _
    simp only [find_channels] at h1
    exact List.mem_of_mem_filter h1
  rcases hic : find_channels chans none (some "IP: ") "in" (some ChanType.voice)
      with _ | ⟨c, icrest⟩
  · refine ⟨{ db := db, chans := chans ++ [mkChannel 1000000000 ("IP: " ++ row.ip)],
              wait := 10, announced := [], created := ["IP: " ++ row.ip], reg := reg,
              pTarget := some pHead.name, hoursTarget := none }, ?_, rfl, ?_, ?_⟩
    · simp [status_cycle, hrow, hmem, hip, renderPhase, renameOrKeep, playersStep, hic, hp]
    · exact List.mem_append_left _ hpmem
    · exact ⟨mkChannel 1000000000 ("IP: " ++ row.ip),
        List.mem_append_right _ (by simp), rfl⟩
  · rw [hic] at hi
    obtain ⟨hcn, hcid⟩ := hi
    have hcmem : c ∈ chans := by
      have h1 : c ∈ find_channels chans none (some "IP: ") "in" (some ChanType.voice) := by
        rw [hic]
        exact List.mem_cons_self _ _
      simp only [find_channels] at h1
      exact List.mem_of_mem_filter h1
    by_cases hname : c.name = "IP: " ++ row.ip
    · refine ⟨{ db := db, chans := chans, wait := 10, announced := [], created := [],
                reg := reg, pTarget := some pHead.name, hoursTarget := none },
        ?_, rfl, hpmem, ⟨c, hcmem, hname⟩⟩
      simp [status_cycle, hrow, hmem, hip, renderPhase, renameOrKeep, playersStep, hic,
        hp, hname]
    · have hforb : c.renameForbidden = false := by
        rcases hcn with h1 | h1
        · exact absurd h1 hname
        · exact h1
      have hne : ¬ pHead.cid = c.cid := fun hh => hcid hh.symm
      refine ⟨{ db := db, chans := applyRename chans c.cid ("IP: " ++ row.ip),
                wait := 301, announced := [], created := [], reg := reg,
                pTarget := some pHead.name, hoursTarget := none }, ?_, rfl, ?_, ?_⟩
      · simp [status_cycle, hrow, hmem, hip, renderPhase, renameOrKeep, playersStep, hic,
          hp, hname, hforb]
      · unfold applyRename
        have hmap := List.mem_map_of_mem
          (fun x : Channel => if x.cid = c.cid then { x with name := "IP: " ++ row.ip } else x)
          hpmem
        simpa [hne] using hmap
      · refine ⟨{ c with name := "IP: " ++ row.ip }, ?_, rfl⟩
        unfold applyRename
        have hmap := List.mem_map_of_mem
          (fun x : Channel => if x.cid = c.cid then { x with name := "IP: " ++ row.ip } else x)
          hcmem
        simpa using hmap

/-- Witness for C2 on the plain scenario with a failed query. -/
theorem c2_witness :
    ∃ r, status_cycle 1 [1] true exChans exDb QueryOutcome.failure 50 false (some 4)
        = Except.ok (CycleResult.next r)
      ∧ r.pTarget = some exChP.name
      ∧ exChP ∈ r.chans
      ∧ ∃ ca, ca ∈ r.chans ∧ ca.name = "IP: " ++ exRow.ip :=
  c2_theorem 1 [1] exChans exDb exRow 50 false (some 4) exChP []
    rfl (by decide) (by decide) rfl ⟨Or.inl rfl, by decide⟩

/-- C10 as frozen is false on the code: a failed-query cycle with no player
count display does not always create the sentinel channel. When no query of
this task instance has succeeded yet, the max local of status_task is still
unassigned, so the f-string of the creation call reads it and raises
UnboundLocalError: the cycle crashes and creates nothing. -/
theorem c10_counterexample :
    status_cycle 1 [1] true [exChA] exDb QueryOutcome.failure 50 false none
      = Except.error DbCrash.unboundLocalMax := rfl

/-- C10 amended: on a cycle whose query failed and with no player count
display present, when an earlier query of this task instance succeeded (the
task local max binding holds a capacity m) the cycle creates a fresh player
count channel whose name embeds the -1 sentinel literally together with that
capacity; when no query of the task has succeeded yet, the cycle instead
crashes with UnboundLocalError at the str(max) evaluation and creates
nothing. -/
theorem c10_theorem (sid : Nat) (reg : List Nat) (chans : List Channel)
    (db : Database) (row : ServerRow) (currTime : Int) (firstIter : Bool)
    (maxEnv : Option Int)
    (hrow : db.servers = some row) (hip : ¬ row.ip = "") (hmem : sid ∈ reg)
    (hp : find_channels chans none (some "Players: ") "in" (some ChanType.voice) = [])
    (hi : match find_channels chans none (some "IP: ") "in" (some ChanType.voice) with
          | [] => True
          | c :: _ => c.name = "IP: " ++ row.ip ∨ c.renameForbidden = false) :
    (∀ m, maxEnv = some m →
      ∃ r, status_cycle sid reg true chans db QueryOutcome.failure currTime firstIter maxEnv
          = Except.ok (CycleResult.next r)
        ∧ ("Players: -1/" ++ toString m) ∈ r.created
        ∧ mkChannel 1000000001 ("Players: -1/" ++ toString m) ∈ r.chans)
    ∧ (maxEnv = none →
      status_cycle sid reg true chans db QueryOutcome.failure currTime firstIter maxEnv
        = Except.error DbCrash.unboundLocalMax) := by
  constructor
  · intro m hm
    subst hm
    have hstr : "Players: " ++ toString (-1 : Int) ++ "/" ++ toString m
        = "Players: -1/" ++ toString m := rfl
    rcases hic : find_channels chans none (some "IP: ") "in" (some ChanType.voice)
        with _ | ⟨c, icrest⟩
    · refine ⟨{ db := db,
                chans := (chans ++ [mkChannel 1000000000 ("IP: " ++ row.ip)])
                  ++ [mkChannel 1000000001
                       ("Players: " ++ toString (-1 : Int) ++ "/" ++ toString m)],
                wait := 10, announced := [],
                created := ["IP: " ++ row.ip]
                  ++ ["Players: " ++ toString (-1 : Int) ++ "/" ++ toString m],
                reg := reg, pTarget := none, hoursTarget := none }, ?_, ?_, ?_⟩
      · simp [status_cycle, hrow, hmem, hip, renderPhase, renameOrKeep, playersStep,
          hic, hp]
      · rw [← hstr]
        simp
      · rw [← hstr]
        simp
    · rw [hic] at hi
      by_cases hname : c.name = "IP: " ++ row.ip
      · refine ⟨{ db := db,
                  chans := chans ++ [mkChannel 1000000001
                    ("Players: " ++ toString (-1 : Int) ++ "/" ++ toString m)],
                  wait := 10, announced := [],
                  created := ["Players: " ++ toString (-1 : Int) ++ "/" ++ toString m],
                  reg := reg, pTarget := none, hoursTarget := none }, ?_, ?_, ?_⟩
        · simp [status_cycle, hrow, hmem, hip, renderPhase, renameOrKeep, playersStep,
            hic, hp, hname]
        · rw [← hstr]
          simp
        · rw [← hstr]
          simp
      · have hforb : c.renameForbidden = false := by
          rcases hi with h1 | h1
          · exact absurd h1 hname
          · exact h1
        refine ⟨{ db := db,
                  chans := applyRename chans c.cid ("IP: " ++ row.ip)
                    ++ [mkChannel 1000000001
                         ("Players: " ++ toString (-1 : Int) ++ "/" ++ toString m)],
                  wait := 301, announced := [],
                  created := ["Players: " ++ toString (-1 : Int) ++ "/" ++ toString m],
                  reg := reg, pTarget := none, hoursTarget := none }, ?_, ?_, ?_⟩
        · simp [status_cycle, hrow, hmem, hip, renderPhase, renameOrKeep, playersStep,
            hic, hp, hname, hforb]
        · rw [← hstr]
          simp
        · rw [← hstr]
          simp
  · intro hm
    subst hm
    rcases hic : find_channels chans none (some "IP: ") "in" (some ChanType.voice)
        with _ | ⟨c, icrest⟩
    · simp [status_cycle, hrow, hmem, hip, renderPhase, renameOrKeep, playersStep,
        hic, hp]
    · rw [hic] at hi
      by_cases hname : c.name = "IP: " ++ row.ip
      · simp [status_cycle, hrow, hmem, hip, renderPhase, renameOrKeep, playersStep,
          hic, hp, hname]
      · have hforb : c.renameForbidden = false := by
          rcases hi with h1 | h1
          · exact absurd h1 hname
          · exact h1
        simp [status_cycle, hrow, hmem, hip, renderPhase, renameOrKeep, playersStep,
          hic, hp, hname, hforb]

/-- Witness for C10: plain scenario with no player display, after a success
bound the capacity 4. -/
theorem c10_witness :
    ∃ r, status_cycle 1 [1] true [exChA] exDb QueryOutcome.failure 50 false (some 4)
        = Except.ok (CycleResult.next r)
      ∧ ("Players: -1/" ++ toString (4 : Int)) ∈ r.created
      ∧ mkChannel 1000000001 ("Players: -1/" ++ toString (4 : Int)) ∈ r.chans :=
  (c10_theorem 1 [1] [exChA] exDb exRow 50 false (some 4) rfl (by decide) (by decide)
    rfl (Or.inl rfl)).1 4 rfl
